import Mathlib

/-!
Shallow embedding of `src/src/index.ts` of the health_track repository.

The source file concatenates three revisions of the same Express/azle
module (separated by revision markers); we embed the route handlers of
each revision in namespaces `Rev1`, `Rev2`, `Rev3`, in source order.

Modelling conventions, fixed once here:
* The azle `StableBTreeMap` (an external platform dependency) is modelled
  as an association list `StableMap` with `mapGet`, `mapInsert` (replace
  or append), `mapRemove` and `mapValues`; `values()` enumerates in the
  list's order.
* `uuidv4()` and `ic.time()` are environment inputs: each handler that
  uses them takes an explicit `newId : String` / `now : Time` argument.
  `getCurrentDate` converts `ic.time()` to a `Date`; we keep the
  resulting timestamp abstract as `Time := Nat`.
* JSON request bodies are records of optional `JSVal` fields (one per
  field the handlers read), plus optional `id` / `createdAt` fields to
  model the object-spread `...req.body` overriding the generated values;
  the `id` override is restricted to strings (map keys are strings).
  JS truthiness and `typeof` checks are modelled on `JSVal`.
* `res.json(x)` is status 200 with payload `x`; `res.status(c).json`,
  `res.status(c).send` carry status `c`, an optional message and an
  optional payload, uniformly as `HResp`.
-/

namespace HealthTrack

/-- Abstract timestamp (the value wrapped by a JS `Date`). -/
abbrev Time := Nat

/-- The result of JS `parseInt`: either `NaN` or an integer. -/
inductive JSNum where
  | nan : JSNum
  | int : Int → JSNum
deriving DecidableEq, Repr

/-- JS runtime values, as far as the handlers inspect them:
strings, numbers (including `NaN`), booleans, `null`, arrays
(the API only ever stores string arrays), and `undefined`. -/
inductive JSVal where
  | vstr : String → JSVal
  | vnum : Int → JSVal
  | vnan : JSVal
  | vbool : Bool → JSVal
  | vnull : JSVal
  | varr : List String → JSVal
  | vundef : JSVal
deriving DecidableEq, Repr

/-- JS truthiness of a value. -/
def truthy : JSVal → Bool
  | .vstr s => s != ""
  | .vnum n => n != 0
  | .vnan => false
  | .vbool b => b
  | .vnull => false
  | .varr _ => true
  | .vundef => false

/-- `!req.body.f || typeof req.body.f !== "string"` is false, i.e. the
field is present, truthy, and a string. `none` is an absent field. -/
def reqStr : Option JSVal → Bool
  | some (.vstr s) => s != ""
  | _ => false

/-- Present, truthy and a number (`NaN` and `0` are falsy). -/
def reqNum : Option JSVal → Bool
  | some (.vnum n) => n != 0
  | _ => false

/-- Present, truthy and an array (`Array.isArray`); arrays are always truthy. -/
def reqArr : Option JSVal → Bool
  | some (.varr _) => true
  | _ => false

/-- The azle `StableBTreeMap<string, α>`, modelled as an association list. -/
abbrev StableMap (α : Type) := List (String × α)

/-- `storage.get(k)`. -/
def mapGet {α : Type} (m : StableMap α) (k : String) : Option α :=
  match m with
  | [] => none
  | (k', v) :: rest => if k' = k then some v else mapGet rest k

/-- `storage.insert(k, v)`: replace the binding of `k` in place, or append. -/
def mapInsert {α : Type} (m : StableMap α) (k : String) (v : α) : StableMap α :=
  match m with
  | [] => [(k, v)]
  | (k', v') :: rest =>
      if k' = k then (k, v) :: rest else (k', v') :: mapInsert rest k v

/-- `storage.remove(k)`: the removed value (if any) and the remaining map. -/
def mapRemove {α : Type} (m : StableMap α) (k : String) : Option α × StableMap α :=
  match m with
  | [] => (none, [])
  | (k', v') :: rest =>
      if k' = k then (some v', rest)
      else
        let r := mapRemove rest k
        (r.1, (k', v') :: r.2)

/-- `storage.values()`. -/
def mapValues {α : Type} (m : StableMap α) : List α := m.map Prod.snd

/-- An HTTP response: status code, optional message text, optional payload. -/
structure HResp (α : Type) where
  status : Nat
  msg : Option String
  payload : Option α
deriving DecidableEq, Repr

/-- `res.json(x)` (implicit status 200, no message). -/
def jsonOk {α : Type} (x : α) : HResp α := ⟨200, none, some x⟩

/-- ECMAScript `Array.prototype.slice(start, stop)` on integer arguments:
negative indices count from the end, and both endpoints are clamped. -/
def jsSlice {α : Type} (xs : List α) (start stop : Int) : List α :=
  let len : Int := xs.length
  let s := if start < 0 then max (len + start) 0 else min start len
  let e := if stop < 0 then max (len + stop) 0 else min stop len
  (xs.take e.toNat).drop s.toNat

/-- `parseInt(q) || d`: an absent parameter, a `NaN` parse result, and a
parse result of `0` are all falsy, so they fall back to the default. -/
def parsedOr (q : Option JSNum) (d : Int) : Int :=
  match q with
  | none => d
  | some .nan => d
  | some (.int n) => if n = 0 then d else n

/-- Body of the revision-3 paginate endpoints (identical for all five
collections): `page`/`limit` default to 1/10, then
`values().slice((page-1)*limit, page*limit)`. -/
def paginate {α : Type} (vals : List α) (pageQ limitQ : Option JSNum) : List α :=
  let page := parsedOr pageQ 1
  let limit := parsedOr limitQ 10
  jsSlice vals ((page - 1) * limit) (page * limit)

/-! ### Request bodies

One record per entity, shared by all three revisions. Each declared JSON
field the handlers read is an `Option JSVal` (`none` = absent). The
`id`/`createdAt` members model a body that additionally carries `id` or
`createdAt` properties, which the spread `...req.body` copies over the
generated values; revision-2 constructors ignore them. `specialty` is
the rev-1/rev-2 doctor field name, `speciality` the rev-3 one; a JS
object can carry both. -/

structure DoctorBody where
  name : Option JSVal := none
  specialty : Option JSVal := none
  speciality : Option JSVal := none
  id : Option String := none
  createdAt : Option Time := none
deriving DecidableEq, Repr

structure PatientBody where
  name : Option JSVal := none
  age : Option JSVal := none
  gender : Option JSVal := none
  id : Option String := none
  createdAt : Option Time := none
deriving DecidableEq, Repr

structure AppointmentBody where
  patientId : Option JSVal := none
  doctorId : Option JSVal := none
  dateTime : Option JSVal := none
  duration : Option JSVal := none
  description : Option JSVal := none
  id : Option String := none
  createdAt : Option Time := none
deriving DecidableEq, Repr

structure RecordBody where
  patientId : Option JSVal := none
  doctorId : Option JSVal := none
  diagnosis : Option JSVal := none
  treatment : Option JSVal := none
  medications : Option JSVal := none
  id : Option String := none
  createdAt : Option Time := none
deriving DecidableEq, Repr

structure MedicationBody where
  name : Option JSVal := none
  dosage : Option JSVal := none
  frequency : Option JSVal := none
  patientId : Option JSVal := none
  id : Option String := none
  createdAt : Option Time := none
deriving DecidableEq, Repr

/-! ## Revision 1 (source lines 1-239)

No validation anywhere; create endpoints build the entity as
`{ id: uuidv4(), createdAt: getCurrentDate(), ...req.body }` (the spread
comes last, so body fields override the generated ones) and insert it
under `entity.id`. Only the appointments collection has by-id GET, PUT
and DELETE routes; PUT and DELETE respond 400 when the id is absent, GET
responds 404. The by-relation endpoints scan `values()` and filter. -/

namespace Rev1

structure Doctor where
  id : String
  name : JSVal
  specialty : JSVal
  createdAt : Time
deriving DecidableEq, Repr

structure Patient where
  id : String
  name : JSVal
  age : JSVal
  gender : JSVal
  createdAt : Time
deriving DecidableEq, Repr

structure Appointment where
  id : String
  patientId : JSVal
  doctorId : JSVal
  dateTime : JSVal
  duration : JSVal
  description : JSVal
  createdAt : Time
  updatedAt : Option Time
deriving DecidableEq, Repr

structure PatientRecord where
  id : String
  patientId : JSVal
  doctorId : JSVal
  diagnosis : JSVal
  treatment : JSVal
  medications : JSVal
  createdAt : Time
deriving DecidableEq, Repr

structure Medication where
  id : String
  name : JSVal
  dosage : JSVal
  frequency : JSVal
  patientId : JSVal
  createdAt : Time
deriving DecidableEq, Repr

/-- The five stable maps of revision 1. -/
structure State where
  doctors : StableMap Doctor
  patients : StableMap Patient
  appointments : StableMap Appointment
  records : StableMap PatientRecord
  medications : StableMap Medication
deriving DecidableEq, Repr

def emptyState : State := ⟨[], [], [], [], []⟩

/-- `POST /doctors` (rev 1): `{ id: uuidv4(), createdAt: now, ...req.body }`;
no validation, insert under `doctor.id`, `res.json(doctor)`. -/
def postDoctor (s : State) (b : DoctorBody) (newId : String) (now : Time) :
    HResp Doctor × State :=
  let d : Doctor :=
    { id := b.id.getD newId
      name := b.name.getD .vundef
      specialty := b.specialty.getD .vundef
      createdAt := b.createdAt.getD now }
  (jsonOk d, { s with doctors := mapInsert s.doctors d.id d })

/-- `POST /patients` (rev 1). -/
def postPatient (s : State) (b : PatientBody) (newId : String) (now : Time) :
    HResp Patient × State :=
  let p : Patient :=
    { id := b.id.getD newId
      name := b.name.getD .vundef
      age := b.age.getD .vundef
      gender := b.gender.getD .vundef
      createdAt := b.createdAt.getD now }
  (jsonOk p, { s with patients := mapInsert s.patients p.id p })

/-- `POST /appointments` (rev 1). -/
def postAppointment (s : State) (b : AppointmentBody) (newId : String) (now : Time) :
    HResp Appointment × State :=
  let a : Appointment :=
    { id := b.id.getD newId
      patientId := b.patientId.getD .vundef
      doctorId := b.doctorId.getD .vundef
      dateTime := b.dateTime.getD .vundef
      duration := b.duration.getD .vundef
      description := b.description.getD .vundef
      createdAt := b.createdAt.getD now
      updatedAt := none }
  (jsonOk a, { s with appointments := mapInsert s.appointments a.id a })

/-- `POST /patient-records` (rev 1). -/
def postRecord (s : State) (b : RecordBody) (newId : String) (now : Time) :
    HResp PatientRecord × State :=
  let r : PatientRecord :=
    { id := b.id.getD newId
      patientId := b.patientId.getD .vundef
      doctorId := b.doctorId.getD .vundef
      diagnosis := b.diagnosis.getD .vundef
      treatment := b.treatment.getD .vundef
      medications := b.medications.getD .vundef
      createdAt := b.createdAt.getD now }
  (jsonOk r, { s with records := mapInsert s.records r.id r })

/-- `POST /medications` (rev 1). -/
def postMedication (s : State) (b : MedicationBody) (newId : String) (now : Time) :
    HResp Medication × State :=
  let m : Medication :=
    { id := b.id.getD newId
      name := b.name.getD .vundef
      dosage := b.dosage.getD .vundef
      frequency := b.frequency.getD .vundef
      patientId := b.patientId.getD .vundef
      createdAt := b.createdAt.getD now }
  (jsonOk m, { s with medications := mapInsert s.medications m.id m })

/-- `GET /appointments/:id` (rev 1): 404 + message when absent. -/
def getAppointment (s : State) (apptId : String) : HResp Appointment :=
  match mapGet s.appointments apptId with
  | none => ⟨404, some ("the appointment with id=" ++ apptId ++ " not found"), none⟩
  | some a => jsonOk a

/-- `PUT /appointments/:id` (rev 1): 400 + message when absent; otherwise
`{ ...appointment, ...req.body, updatedAt: now }` inserted under
`appointment.id` (the stored entity's id, not the path id). -/
def putAppointment (s : State) (apptId : String) (b : AppointmentBody) (now : Time) :
    HResp Appointment × State :=
  match mapGet s.appointments apptId with
  | none =>
      (⟨400, some ("couldn't update an appointment with id=" ++ apptId ++
        ". appointment not found"), none⟩, s)
  | some a =>
      let u : Appointment :=
        { id := b.id.getD a.id
          patientId := b.patientId.getD a.patientId
          doctorId := b.doctorId.getD a.doctorId
          dateTime := b.dateTime.getD a.dateTime
          duration := b.duration.getD a.duration
          description := b.description.getD a.description
          createdAt := b.createdAt.getD a.createdAt
          updatedAt := some now }
      (jsonOk u, { s with appointments := mapInsert s.appointments a.id u })

/-- `DELETE /appointments/:id` (rev 1): 400 + message when absent. -/
def deleteAppointment (s : State) (apptId : String) : HResp Appointment × State :=
  let r := mapRemove s.appointments apptId
  match r.1 with
  | none =>
      (⟨400, some ("couldn't delete an appointment with id=" ++ apptId ++
        ". appointment not found"), none⟩, { s with appointments := r.2 })
  | some a => (jsonOk a, { s with appointments := r.2 })

/-- `GET /patient-records/patient/:id` (rev 1): scan and filter on the
stored `patientId` field (JS `===` against the path string). -/
def recordsByPatient (s : State) (pid : String) : HResp (List PatientRecord) :=
  jsonOk ((mapValues s.records).filter (fun r => r.patientId == JSVal.vstr pid))

/-- `GET /patient-records/doctor/:id` (rev 1): scan and filter. -/
def recordsByDoctor (s : State) (did : String) : HResp (List PatientRecord) :=
  jsonOk ((mapValues s.records).filter (fun r => r.doctorId == JSVal.vstr did))

/-- `GET /medications/patient/:id` (rev 1): scan and filter. -/
def medsByPatient (s : State) (pid : String) : HResp (List Medication) :=
  jsonOk ((mapValues s.medications).filter (fun m => m.patientId == JSVal.vstr pid))

end Rev1

/-! ## Revision 2 (source lines 240-489)

Every entity class has a constructor that assigns `this.id = uuidv4()`
itself; handlers destructure the declared fields out of `req.body` and
pass them to the constructor, so extra body properties (an `id` in
particular) never reach the stored object. `storage.get` is used with a
plain truthiness check, which we model as a presence check. We embed the
two collections the claims under scrutiny touch (doctors, appointments);
`new Date(dateTime)` is kept abstract as the passed value. -/

namespace Rev2

structure Doctor where
  id : String
  name : JSVal
  specialty : JSVal
  createdAt : Time
deriving DecidableEq, Repr

structure Appointment where
  id : String
  patientId : JSVal
  doctorId : JSVal
  dateTime : JSVal
  duration : JSVal
  description : JSVal
  createdAt : Time
  updatedAt : Option Time
deriving DecidableEq, Repr

structure State where
  doctors : StableMap Doctor
  appointments : StableMap Appointment
deriving DecidableEq, Repr

def emptyState : State := ⟨[], []⟩

/-- The rev-2 `Doctor` constructor: fresh uuid, fields from the
arguments, `createdAt = new Date()`. -/
def mkDoctor (name specialty : JSVal) (newId : String) (now : Time) : Doctor :=
  { id := newId, name := name, specialty := specialty, createdAt := now }

/-- The rev-2 `Appointment` constructor: fresh uuid, `updatedAt = null`. -/
def mkAppointment (patientId doctorId dateTime duration description : JSVal)
    (newId : String) (now : Time) : Appointment :=
  { id := newId, patientId := patientId, doctorId := doctorId
    dateTime := dateTime, duration := duration, description := description
    createdAt := now, updatedAt := none }

/-- `POST /doctors` (rev 2): `new Doctor(name, specialty)` from the
destructured body, inserted under `doctor.id`. -/
def postDoctor (s : State) (b : DoctorBody) (newId : String) (now : Time) :
    HResp Doctor × State :=
  let d := mkDoctor (b.name.getD .vundef) (b.specialty.getD .vundef) newId now
  (jsonOk d, { s with doctors := mapInsert s.doctors d.id d })

/-- `POST /appointments` (rev 2). -/
def postAppointment (s : State) (b : AppointmentBody) (newId : String) (now : Time) :
    HResp Appointment × State :=
  let a := mkAppointment (b.patientId.getD .vundef) (b.doctorId.getD .vundef)
    (b.dateTime.getD .vundef) (b.duration.getD .vundef)
    (b.description.getD .vundef) newId now
  (jsonOk a, { s with appointments := mapInsert s.appointments a.id a })

/-- `PUT /appointments/:id` (rev 2): when the id is present, a brand-new
`Appointment` is constructed from the body — with a FRESH uuid as its
`id` — and stored under the path id `appointmentId`. -/
def putAppointment (s : State) (apptId : String) (b : AppointmentBody)
    (newId : String) (now : Time) : HResp Appointment × State :=
  match mapGet s.appointments apptId with
  | none => (⟨404, some ("Appointment with ID " ++ apptId ++ " not found"), none⟩, s)
  | some _ =>
      let u0 := mkAppointment (b.patientId.getD .vundef) (b.doctorId.getD .vundef)
        (b.dateTime.getD .vundef) (b.duration.getD .vundef)
        (b.description.getD .vundef) newId now
      let u := { u0 with updatedAt := some now }
      (jsonOk u, { s with appointments := mapInsert s.appointments apptId u })

end Rev2

/-! ## Revision 3 (source lines 490-1306)

Envelope responses `{status, message, entity}`; create and update
handlers validate the declared fields first (400 on failure); by-id
handlers respond 404 when absent. `POST /doctors` goes through the
rev-3 `Doctor` constructor (no spread); the other four creates use
`{ id: uuidv4(), createdAt: now, ...req.body }`. Updates use
`{ ...old, ...req.body, updatedAt: now }` and insert under `old.id`.
The by-relation record/medication endpoints call `storage.get(pathId)`
(a key lookup, not a filter). The `catch`-branch 500 responses guard
exceptions that the embedded operations cannot raise and are omitted. -/

namespace Rev3

structure Doctor where
  id : String
  name : JSVal
  speciality : JSVal
  createdAt : Time
  updatedAt : Option Time
deriving DecidableEq, Repr

structure Patient where
  id : String
  name : JSVal
  age : JSVal
  gender : JSVal
  createdAt : Time
  updatedAt : Option Time
deriving DecidableEq, Repr

structure Appointment where
  id : String
  patientId : JSVal
  doctorId : JSVal
  dateTime : JSVal
  duration : JSVal
  description : JSVal
  createdAt : Time
  updatedAt : Option Time
deriving DecidableEq, Repr

structure PatientRecord where
  id : String
  patientId : JSVal
  doctorId : JSVal
  diagnosis : JSVal
  treatment : JSVal
  medications : JSVal
  createdAt : Time
  updatedAt : Option Time
deriving DecidableEq, Repr

structure Medication where
  id : String
  name : JSVal
  dosage : JSVal
  frequency : JSVal
  patientId : JSVal
  createdAt : Time
  updatedAt : Option Time
deriving DecidableEq, Repr

/-- The five stable maps of revision 3. -/
structure State where
  doctors : StableMap Doctor
  patients : StableMap Patient
  appointments : StableMap Appointment
  records : StableMap PatientRecord
  medications : StableMap Medication
deriving DecidableEq, Repr

def emptyState : State := ⟨[], [], [], [], []⟩

/-- Rev-3 doctor payload validation:
`!name || typeof name !== "string" || !speciality || ...`. -/
def validDoctorBody (b : DoctorBody) : Bool :=
  reqStr b.name && reqStr b.speciality

/-- Rev-3 patient payload validation. -/
def validPatientBody (b : PatientBody) : Bool :=
  reqStr b.name && reqNum b.age && reqStr b.gender

/-- Rev-3 appointment payload validation (`dateTime` must be a string,
`duration` a number). -/
def validAppointmentBody (b : AppointmentBody) : Bool :=
  reqStr b.patientId && reqStr b.doctorId && reqStr b.dateTime &&
    reqNum b.duration && reqStr b.description

/-- Rev-3 patient-record payload validation (`medications` must be an
array). -/
def validRecordBody (b : RecordBody) : Bool :=
  reqStr b.patientId && reqStr b.doctorId && reqStr b.diagnosis &&
    reqStr b.treatment && reqArr b.medications

/-- Rev-3 medication payload validation. -/
def validMedicationBody (b : MedicationBody) : Bool :=
  reqStr b.name && reqStr b.dosage && reqStr b.frequency && reqStr b.patientId

/-- The rev-3 `Doctor` constructor (fresh uuid, `createdAt = getCurrentDate()`). -/
def mkDoctor (name speciality : JSVal) (newId : String) (now : Time) : Doctor :=
  { id := newId, name := name, speciality := speciality
    createdAt := now, updatedAt := none }

/-- `POST /doctors` (rev 3): validate, then `new Doctor(...)` — the body
is destructured, not spread — insert under `doctor.id`, respond 201. -/
def postDoctor (s : State) (b : DoctorBody) (newId : String) (now : Time) :
    HResp Doctor × State :=
  if validDoctorBody b then
    let d := mkDoctor (b.name.getD .vundef) (b.speciality.getD .vundef) newId now
    (⟨201, some "Doctor created successfully", some d⟩,
      { s with doctors := mapInsert s.doctors d.id d })
  else
    (⟨400, some "Invalid input: Ensure 'name' and 'speciality' are provided and are strings.",
      none⟩, s)

/-- `GET /doctors` (rev 3). -/
def getDoctors (s : State) : HResp (List Doctor) :=
  ⟨200, some "Doctors retrieved successfully", some (mapValues s.doctors)⟩

/-- `GET /doctors/:id` (rev 3). -/
def getDoctor (s : State) (doctorId : String) : HResp Doctor :=
  match mapGet s.doctors doctorId with
  | none => ⟨404, some ("Doctor with id = " ++ doctorId ++ " not found"), none⟩
  | some d => ⟨200, some "Doctor retrieved successfully", some d⟩

/-- `GET /doctors/paginate/pages` (rev 3). -/
def doctorsPaginate (s : State) (pageQ limitQ : Option JSNum) : HResp (List Doctor) :=
  jsonOk (paginate (mapValues s.doctors) pageQ limitQ)

/-- `PUT /doctors/:id` (rev 3): validate (400), lookup (404), else
`{ ...doctor, ...req.body, updatedAt: now }` inserted under `doctor.id`. -/
def putDoctor (s : State) (doctorId : String) (b : DoctorBody) (now : Time) :
    HResp Doctor × State :=
  if validDoctorBody b then
    match mapGet s.doctors doctorId with
    | none =>
        (⟨404, some ("Doctor with id = " ++ doctorId ++ " not found"), none⟩, s)
    | some d =>
        let u : Doctor :=
          { id := b.id.getD d.id
            name := b.name.getD d.name
            speciality := b.speciality.getD d.speciality
            createdAt := b.createdAt.getD d.createdAt
            updatedAt := some now }
        (⟨200, some "Doctor updated successfully", some u⟩,
          { s with doctors := mapInsert s.doctors d.id u })
  else
    (⟨400, some "Invalid input: Ensure 'name' and 'speciality' are provided and are strings.",
      none⟩, s)

/-- `DELETE /doctors/:id` (rev 3). -/
def deleteDoctor (s : State) (doctorId : String) : HResp Doctor × State :=
  let r := mapRemove s.doctors doctorId
  match r.1 with
  | none =>
      (⟨404, some ("Doctor with id = " ++ doctorId ++ " not found"), none⟩,
        { s with doctors := r.2 })
  | some d =>
      (⟨200, some "Doctor deleted successfully", some d⟩, { s with doctors := r.2 })

/-- `POST /patients` (rev 3): validate, then
`{ id: uuidv4(), createdAt: now, ...req.body }` — the spread comes last,
so body `id`/`createdAt` fields override the generated ones. -/
def postPatient (s : State) (b : PatientBody) (newId : String) (now : Time) :
    HResp Patient × State :=
  if validPatientBody b then
    let p : Patient :=
      { id := b.id.getD newId
        name := b.name.getD .vundef
        age := b.age.getD .vundef
        gender := b.gender.getD .vundef
        createdAt := b.createdAt.getD now
        updatedAt := none }
    (⟨201, some "Patient created successfully", some p⟩,
      { s with patients := mapInsert s.patients p.id p })
  else
    (⟨400, some "Invalid input: Ensure 'name' is a string, 'age' is a number and 'gender' is a string.",
      none⟩, s)

/-- `GET /patients/:id` (rev 3). -/
def getPatient (s : State) (patientId : String) : HResp Patient :=
  match mapGet s.patients patientId with
  | none => ⟨404, some ("Patient with id = " ++ patientId ++ " not found"), none⟩
  | some p => ⟨200, some "Patient retrieved successfully", some p⟩

/-- `GET /patients/paginate/pages` (rev 3). -/
def patientsPaginate (s : State) (pageQ limitQ : Option JSNum) : HResp (List Patient) :=
  jsonOk (paginate (mapValues s.patients) pageQ limitQ)

/-- `PUT /patients/:id` (rev 3). -/
def putPatient (s : State) (patientId : String) (b : PatientBody) (now : Time) :
    HResp Patient × State :=
  if validPatientBody b then
    match mapGet s.patients patientId with
    | none =>
        (⟨404, some ("Patient with id = " ++ patientId ++ " not found"), none⟩, s)
    | some p =>
        let u : Patient :=
          { id := b.id.getD p.id
            name := b.name.getD p.name
            age := b.age.getD p.age
            gender := b.gender.getD p.gender
            createdAt := b.createdAt.getD p.createdAt
            updatedAt := some now }
        (⟨200, some "Patient updated successfully", some u⟩,
          { s with patients := mapInsert s.patients p.id u })
  else
    (⟨400, some "Invalid input: Ensure 'name' is a string, 'age' is a number and gender is a string.",
      none⟩, s)

/-- `DELETE /patients/:id` (rev 3). -/
def deletePatient (s : State) (patientId : String) : HResp Patient × State :=
  let r := mapRemove s.patients patientId
  match r.1 with
  | none =>
      (⟨404, some ("Patient with id = " ++ patientId ++ " not found"), none⟩,
        { s with patients := r.2 })
  | some p =>
      (⟨200, some "Patient deleted successfully", some p⟩, { s with patients := r.2 })

/-- `POST /appointments` (rev 3): validate, then spread-create. -/
def postAppointment (s : State) (b : AppointmentBody) (newId : String) (now : Time) :
    HResp Appointment × State :=
  if validAppointmentBody b then
    let a : Appointment :=
      { id := b.id.getD newId
        patientId := b.patientId.getD .vundef
        doctorId := b.doctorId.getD .vundef
        dateTime := b.dateTime.getD .vundef
        duration := b.duration.getD .vundef
        description := b.description.getD .vundef
        createdAt := b.createdAt.getD now
        updatedAt := none }
    (⟨201, some "Appointment created successfully", some a⟩,
      { s with appointments := mapInsert s.appointments a.id a })
  else
    (⟨400, some "Invalid input: Ensure 'patientId', 'doctorId', 'dateTime', 'duration' and 'description' are provided and are of the correct type.",
      none⟩, s)

/-- `GET /appointments/paginate/pages` (rev 3). -/
def appointmentsPaginate (s : State) (pageQ limitQ : Option JSNum) :
    HResp (List Appointment) :=
  jsonOk (paginate (mapValues s.appointments) pageQ limitQ)

/-- `GET /appointments/:id` (rev 3). -/
def getAppointment (s : State) (apptId : String) : HResp Appointment :=
  match mapGet s.appointments apptId with
  | none => ⟨404, some ("Appointment with id = " ++ apptId ++ " not found"), none⟩
  | some a => ⟨200, some "Appointment retrieved successfully", some a⟩

/-- `PUT /appointments/:id` (rev 3). -/
def putAppointment (s : State) (apptId : String) (b : AppointmentBody) (now : Time) :
    HResp Appointment × State :=
  if validAppointmentBody b then
    match mapGet s.appointments apptId with
    | none =>
        (⟨404, some ("Appointment with id = " ++ apptId ++ " not found"), none⟩, s)
    | some a =>
        let u : Appointment :=
          { id := b.id.getD a.id
            patientId := b.patientId.getD a.patientId
            doctorId := b.doctorId.getD a.doctorId
            dateTime := b.dateTime.getD a.dateTime
            duration := b.duration.getD a.duration
            description := b.description.getD a.description
            createdAt := b.createdAt.getD a.createdAt
            updatedAt := some now }
        (⟨200, some "Appointment updated successfully", some u⟩,
          { s with appointments := mapInsert s.appointments a.id u })
  else
    (⟨400, some "Invalid input: Ensure 'patientId', 'doctorId', 'dateTime', 'duration' and 'description' are provided and are of the correct type.",
      none⟩, s)

/-- `DELETE /appointments/:id` (rev 3). -/
def deleteAppointment (s : State) (apptId : String) : HResp Appointment × State :=
  let r := mapRemove s.appointments apptId
  match r.1 with
  | none =>
      (⟨404, some ("Appointment with id = " ++ apptId ++ " not found"), none⟩,
        { s with appointments := r.2 })
  | some a =>
      (⟨200, some "Appointment deleted successfully", some a⟩,
        { s with appointments := r.2 })

/-- `POST /patient-records` (rev 3): validate, then spread-create. -/
def postRecord (s : State) (b : RecordBody) (newId : String) (now : Time) :
    HResp PatientRecord × State :=
  if validRecordBody b then
    let r : PatientRecord :=
      { id := b.id.getD newId
        patientId := b.patientId.getD .vundef
        doctorId := b.doctorId.getD .vundef
        diagnosis := b.diagnosis.getD .vundef
        treatment := b.treatment.getD .vundef
        medications := b.medications.getD .vundef
        createdAt := b.createdAt.getD now
        updatedAt := none }
    (⟨201, some "Patient record created successfully", some r⟩,
      { s with records := mapInsert s.records r.id r })
  else
    (⟨400, some "Invalid input: Ensure 'patientId', 'doctorId', 'diagnosis', 'treatment' and 'medications' are provided and are of the correct type.",
      none⟩, s)

/-- `GET /patient-records/doctor/:id` (rev 3): NOT a filter — the handler
calls `patientRecordsStorage.get(doctorId)`, a key lookup by the path id,
and 404s when that key is absent. -/
def recordsByDoctor (s : State) (doctorId : String) : HResp PatientRecord :=
  match mapGet s.records doctorId with
  | none =>
      ⟨404, some ("Patient records for doctor with id = " ++ doctorId ++ " not found"),
        none⟩
  | some r => ⟨200, some "Patient records retrieved successfully", some r⟩

/-- `GET /patient-records/patient/:id` (rev 3): likewise a key lookup
`patientRecordsStorage.get(patientId)`. -/
def recordsByPatient (s : State) (patientId : String) : HResp PatientRecord :=
  match mapGet s.records patientId with
  | none =>
      ⟨404, some ("Patient records for patient with id = " ++ patientId ++ " not found"),
        none⟩
  | some r => ⟨200, some "Patient records retrieved successfully", some r⟩

/-- `GET /patient-records/paginate/pages` (rev 3). -/
def recordsPaginate (s : State) (pageQ limitQ : Option JSNum) :
    HResp (List PatientRecord) :=
  jsonOk (paginate (mapValues s.records) pageQ limitQ)

/-- `PUT /patient-records/:id` (rev 3). -/
def putRecord (s : State) (recId : String) (b : RecordBody) (now : Time) :
    HResp PatientRecord × State :=
  if validRecordBody b then
    match mapGet s.records recId with
    | none =>
        (⟨404, some ("Patient record with id = " ++ recId ++ " not found"), none⟩, s)
    | some r =>
        let u : PatientRecord :=
          { id := b.id.getD r.id
            patientId := b.patientId.getD r.patientId
            doctorId := b.doctorId.getD r.doctorId
            diagnosis := b.diagnosis.getD r.diagnosis
            treatment := b.treatment.getD r.treatment
            medications := b.medications.getD r.medications
            createdAt := b.createdAt.getD r.createdAt
            updatedAt := some now }
        (⟨200, some "Patient record updated successfully", some u⟩,
          { s with records := mapInsert s.records r.id u })
  else
    (⟨400, some "Invalid input: Ensure 'patientId', 'doctorId', 'diagnosis', 'treatment' and 'medications' are provided and are of the correct type.",
      none⟩, s)

/-- `DELETE /patient-records/:id` (rev 3). -/
def deleteRecord (s : State) (recId : String) : HResp PatientRecord × State :=
  let r := mapRemove s.records recId
  match r.1 with
  | none =>
      (⟨404, some ("Patient record with id = " ++ recId ++ " not found"), none⟩,
        { s with records := r.2 })
  | some rec =>
      (⟨200, some "Patient record deleted successfully", some rec⟩,
        { s with records := r.2 })

/-- `POST /medications` (rev 3): validate, then spread-create. -/
def postMedication (s : State) (b : MedicationBody) (newId : String) (now : Time) :
    HResp Medication × State :=
  if validMedicationBody b then
    let m : Medication :=
      { id := b.id.getD newId
        name := b.name.getD .vundef
        dosage := b.dosage.getD .vundef
        frequency := b.frequency.getD .vundef
        patientId := b.patientId.getD .vundef
        createdAt := b.createdAt.getD now
        updatedAt := none }
    (⟨201, some "Medication created successfully", some m⟩,
      { s with medications := mapInsert s.medications m.id m })
  else
    (⟨400, some "Invalid input: Ensure 'name', 'dosage', 'frequency' and 'patientId' are provided and are of the correct type.",
      none⟩, s)

/-- `GET /medications/patient/:id` (rev 3): again a key lookup
`medicationsStorage.get(patientId)`, not a filter. -/
def medsByPatient (s : State) (patientId : String) : HResp Medication :=
  match mapGet s.medications patientId with
  | none =>
      ⟨404, some ("Medications for patient with id = " ++ patientId ++ " not found"),
        none⟩
  | some m => ⟨200, some "Medications retrieved successfully", some m⟩

/-- `GET /medications/paginate/pages` (rev 3). -/
def medsPaginate (s : State) (pageQ limitQ : Option JSNum) : HResp (List Medication) :=
  jsonOk (paginate (mapValues s.medications) pageQ limitQ)

end Rev3

/-! ## Helper lemmas about the map model -/

theorem mapGet_insert_self {α : Type} (m : StableMap α) (k : String) (v : α) :
    mapGet (mapInsert m k v) k = some v := by
  induction m with
  | nil => simp [mapInsert, mapGet]
  | cons hd tl ih =>
      obtain ⟨k', v'⟩ := hd
      by_cases h : k' = k
      · simp [mapInsert, h, mapGet]
      · simp [mapInsert, h, mapGet, ih]

theorem mapGet_insert_ne {α : Type} (m : StableMap α) (k k' : String) (v : α)
    (h : k' ≠ k) : mapGet (mapInsert m k v) k' = mapGet m k' := by
  have hne : k ≠ k' := Ne.symm h
  induction m with
  | nil => simp [mapInsert, mapGet, hne]
  | cons hd tl ih =>
      obtain ⟨k₀, v₀⟩ := hd
      by_cases hk : k₀ = k
      · simp [mapInsert, hk, mapGet, hne]
      · simp [mapInsert, hk, mapGet, ih]

theorem mapRemove_fst {α : Type} (m : StableMap α) (k : String) :
    (mapRemove m k).1 = mapGet m k := by
  induction m with
  | nil => simp [mapRemove, mapGet]
  | cons hd tl ih =>
      obtain ⟨k', v'⟩ := hd
      by_cases h : k' = k
      · simp [mapRemove, h, mapGet]
      · simp [mapRemove, h, mapGet, ih]

theorem mapRemove_absent {α : Type} (m : StableMap α) (k : String)
    (h : mapGet m k = none) : (mapRemove m k).2 = m := by
  induction m with
  | nil => simp [mapRemove]
  | cons hd tl ih =>
      obtain ⟨k', v'⟩ := hd
      by_cases hk : k' = k
      · simp [mapGet, hk] at h
      · simp [mapGet, hk] at h
        simp [mapRemove, hk, ih h]

theorem mapGet_remove_ne {α : Type} (m : StableMap α) (k k' : String)
    (h : k' ≠ k) : mapGet (mapRemove m k).2 k' = mapGet m k' := by
  have hne : k ≠ k' := Ne.symm h
  induction m with
  | nil => simp [mapRemove, mapGet]
  | cons hd tl ih =>
      obtain ⟨k₀, v₀⟩ := hd
      by_cases hk : k₀ = k
      · simp [mapRemove, hk, mapGet, hne]
      · simp [mapRemove, hk, mapGet, ih]

theorem mem_values_insert {α : Type} (m : StableMap α) (k : String) (v : α) :
    v ∈ mapValues (mapInsert m k v) := by
  induction m with
  | nil => simp [mapInsert, mapValues]
  | cons hd tl ih =>
      obtain ⟨k', v'⟩ := hd
      by_cases h : k' = k
      · simp [mapInsert, h, mapValues]
      · simp only [mapInsert, h, if_false, mapValues, List.map_cons, List.mem_cons]
        exact Or.inr ih

theorem take_min_length {α : Type} (xs : List α) (n : Nat) :
    xs.take (min n xs.length) = xs.take n := by
  rcases Nat.le_total n xs.length with h | h
  · rw [min_eq_left h]
  · rw [min_eq_right h, List.take_length, List.take_of_length_le h]

theorem drop_min_of_le {α : Type} (ys : List α) (a L : Nat) (h : ys.length ≤ L) :
    ys.drop (min a L) = ys.drop a := by
  rcases Nat.le_total a L with h1 | h1
  · rw [min_eq_left h1]
  · rw [min_eq_right h1, List.drop_eq_nil_of_le h,
      List.drop_eq_nil_of_le (le_trans h h1)]

/-- `slice` at nonnegative (natural) endpoints is plain take-then-drop. -/
theorem jsSlice_natCast {α : Type} (xs : List α) (a b : Nat) :
    jsSlice xs (a : Int) (b : Int) = (xs.take b).drop a := by
  have ha : ¬((a : Int) < 0) := by omega
  have hb : ¬((b : Int) < 0) := by omega
  have hmin : ∀ c : Nat, min (c : Int) (xs.length : Int) = ((min c xs.length : Nat) : Int) := by
    intro c; push_cast; rfl
  simp only [jsSlice, ha, hb, if_false, hmin, Int.toNat_natCast]
  rw [take_min_length]
  exact drop_min_of_le _ _ _ (by rw [List.length_take]; exact min_le_right _ _)

/-- `paginate` at explicit positive `page`/`limit` returns the slice from
`(page-1)*limit` (inclusive) to `page*limit` (exclusive). -/
theorem paginate_pos {α : Type} (vals : List α) (p l : Nat) (hp : 1 ≤ p) (hl : 1 ≤ l) :
    paginate vals (some (JSNum.int (p : Int))) (some (JSNum.int (l : Int))) =
      (vals.take (p * l)).drop ((p - 1) * l) := by
  have hp0 : ¬((p : Int) = 0) := by omega
  have hl0 : ¬((l : Int) = 0) := by omega
  have e1 : ((p : Int) - 1) * (l : Int) = (((p - 1) * l : Nat) : Int) := by
    push_cast [Nat.cast_sub hp]; ring
  have e2 : (p : Int) * (l : Int) = (((p * l : Nat) : Int)) := by push_cast; ring
  simp only [paginate, parsedOr, hp0, hl0, if_false]
  rw [e1, e2, jsSlice_natCast]

/-- A degenerate `page` parameter (absent, `NaN`, or parsed `0`) is the
same as passing `1`, by the `|| 1` fallback. -/
theorem parsedOr_page_default (q : Option JSNum)
    (h : q = none ∨ q = some JSNum.nan ∨ q = some (JSNum.int 0)) :
    parsedOr q 1 = parsedOr (some (JSNum.int 1)) 1 := by
  rcases h with h | h | h <;> subst h <;> simp [parsedOr]

/-- Likewise a degenerate `limit` parameter is the same as passing `10`. -/
theorem parsedOr_limit_default (q : Option JSNum)
    (h : q = none ∨ q = some JSNum.nan ∨ q = some (JSNum.int 0)) :
    parsedOr q 10 = parsedOr (some (JSNum.int 10)) 10 := by
  rcases h with h | h | h <;> subst h <;> simp [parsedOr]

theorem paginate_none_none {α : Type} (vals : List α) :
    paginate vals none none = vals.take 10 := by
  have e1 : ((1 : Int) - 1) * (10 : Int) = ((0 : Nat) : Int) := by norm_num
  have e2 : (1 : Int) * (10 : Int) = (((10 : Nat)) : Int) := by norm_num
  simp only [paginate, parsedOr]
  rw [e1, e2, jsSlice_natCast]
  simp

theorem paginate_none_some {α : Type} (vals : List α) (l : Nat) (hl : 1 ≤ l) :
    paginate vals none (some (JSNum.int (l : Int))) = vals.take l := by
  have hl0 : ¬((l : Int) = 0) := by omega
  have e1 : ((1 : Int) - 1) * (l : Int) = ((0 : Nat) : Int) := by norm_num
  have e2 : (1 : Int) * (l : Int) = ((l : Nat) : Int) := by norm_num
  simp only [paginate, parsedOr, hl0, if_false]
  rw [e1, e2, jsSlice_natCast]
  simp

theorem paginate_some_none {α : Type} (vals : List α) (p : Nat) (hp : 1 ≤ p) :
    paginate vals (some (JSNum.int (p : Int))) none =
      (vals.take (p * 10)).drop ((p - 1) * 10) := by
  have hp0 : ¬((p : Int) = 0) := by omega
  have e1 : ((p : Int) - 1) * (10 : Int) = (((p - 1) * 10 : Nat) : Int) := by
    push_cast [Nat.cast_sub hp]; ring
  have e2 : (p : Int) * (10 : Int) = (((p * 10 : Nat)) : Int) := by push_cast; ring
  simp only [paginate, parsedOr, hp0, if_false]
  rw [e1, e2, jsSlice_natCast]

/-- Key/id coherence of a collection: every stored entity's `id`-projection
equals the key it is stored under. -/
def idKeyInv {α : Type} (idOf : α → String) (m : StableMap α) : Prop :=
  ∀ p ∈ m, idOf p.2 = p.1

theorem idKeyInv_insert {α : Type} (idOf : α → String) (m : StableMap α)
    (k : String) (v : α) (hm : idKeyInv idOf m) (hv : idOf v = k) :
    idKeyInv idOf (mapInsert m k v) := by
  induction m with
  | nil =>
      intro p hp
      simp [mapInsert] at hp
      subst hp; exact hv
  | cons hd tl ih =>
      obtain ⟨k₀, v₀⟩ := hd
      have htl : idKeyInv idOf tl := fun p hp => hm p (List.mem_cons_of_mem _ hp)
      by_cases h : k₀ = k
      · intro p hp
        simp only [mapInsert, h, if_true] at hp
        rcases List.mem_cons.mp hp with h1 | h2
        · subst h1; exact hv
        · exact htl p h2
      · intro p hp
        simp only [mapInsert, h, if_false] at hp
        rcases List.mem_cons.mp hp with h1 | h2
        · subst h1; exact hm (k₀, v₀) (List.mem_cons_self _ _)
        · exact ih htl p h2

theorem idKeyInv_remove {α : Type} (idOf : α → String) (m : StableMap α)
    (k : String) (hm : idKeyInv idOf m) :
    idKeyInv idOf (mapRemove m k).2 := by
  induction m with
  | nil => intro p hp; simp [mapRemove] at hp
  | cons hd tl ih =>
      obtain ⟨k₀, v₀⟩ := hd
      have htl : idKeyInv idOf tl := fun p hp => hm p (List.mem_cons_of_mem _ hp)
      by_cases h : k₀ = k
      · simpa [mapRemove, h] using htl
      · intro p hp
        simp only [mapRemove, h, if_false] at hp
        rcases List.mem_cons.mp hp with h1 | h2
        · subst h1; exact hm (k₀, v₀) (List.mem_cons_self _ _)
        · exact ih htl p h2

theorem idKeyInv_of_get {α : Type} (idOf : α → String) (m : StableMap α)
    (k : String) (v : α) (hm : idKeyInv idOf m) (h : mapGet m k = some v) :
    idOf v = k := by
  induction m with
  | nil => simp [mapGet] at h
  | cons hd tl ih =>
      obtain ⟨k₀, v₀⟩ := hd
      have htl : idKeyInv idOf tl := fun p hp => hm p (List.mem_cons_of_mem _ hp)
      by_cases hk : k₀ = k
      · simp [mapGet, hk] at h
        subst h
        simpa [hk] using hm (k₀, v₀) (List.mem_cons_self _ _)
      · simp [mapGet, hk] at h
        exact ih htl h

/-! ## Concrete sample data (used by witnesses and counterexamples) -/

def docBodyOK : DoctorBody :=
  { name := some (.vstr "Alice"), specialty := some (.vstr "cardiology"),
    speciality := some (.vstr "cardiology") }

def patBodyOK : PatientBody :=
  { name := some (.vstr "Bob"), age := some (.vnum 30), gender := some (.vstr "male") }

def apptBodyOK : AppointmentBody :=
  { patientId := some (.vstr "p1"), doctorId := some (.vstr "d1"),
    dateTime := some (.vstr "2024-05-01T10:00"), duration := some (.vnum 30),
    description := some (.vstr "checkup") }

def recBodyOK : RecordBody :=
  { patientId := some (.vstr "p1"), doctorId := some (.vstr "d1"),
    diagnosis := some (.vstr "flu"), treatment := some (.vstr "rest"),
    medications := some (.varr ["paracetamol"]) }

def medBodyOK : MedicationBody :=
  { name := some (.vstr "paracetamol"), dosage := some (.vstr "500mg"),
    frequency := some (.vstr "daily"), patientId := some (.vstr "p1") }

def sampleDoctor3 (i : String) : Rev3.Doctor :=
  { id := i, name := .vstr "Alice", speciality := .vstr "cardiology",
    createdAt := 0, updatedAt := none }

def sampleState3 : Rev3.State :=
  { Rev3.emptyState with
      doctors := [("d1", sampleDoctor3 "d1"), ("d2", sampleDoctor3 "d2"),
        ("d3", sampleDoctor3 "d3")] }

/-! ## Claims -/

/-- C5: every revision-3 paginate endpoint with query `page = p` and
`limit = l` (p, l ≥ 1) responds with the contiguous slice of the
collection's value sequence from index `(p-1)*l` (inclusive) to `p*l`
(exclusive); an absent `page` defaults to 1 and an absent `limit` to 10
(no parameters yields indices 0 to 10; `page` alone indices `(p-1)*10`
to `p*10`; `limit` alone indices 0 to `l`). -/
theorem C5_paginate_slice (s : Rev3.State) (p l : Nat) (hp : 1 ≤ p) (hl : 1 ≤ l) :
    (Rev3.doctorsPaginate s (some (JSNum.int p)) (some (JSNum.int l)) =
      jsonOk (((mapValues s.doctors).take (p * l)).drop ((p - 1) * l))) ∧
    (Rev3.patientsPaginate s (some (JSNum.int p)) (some (JSNum.int l)) =
      jsonOk (((mapValues s.patients).take (p * l)).drop ((p - 1) * l))) ∧
    (Rev3.appointmentsPaginate s (some (JSNum.int p)) (some (JSNum.int l)) =
      jsonOk (((mapValues s.appointments).take (p * l)).drop ((p - 1) * l))) ∧
    (Rev3.recordsPaginate s (some (JSNum.int p)) (some (JSNum.int l)) =
      jsonOk (((mapValues s.records).take (p * l)).drop ((p - 1) * l))) ∧
    (Rev3.medsPaginate s (some (JSNum.int p)) (some (JSNum.int l)) =
      jsonOk (((mapValues s.medications).take (p * l)).drop ((p - 1) * l))) ∧
    (Rev3.doctorsPaginate s none none = jsonOk ((mapValues s.doctors).take 10)) ∧
    (Rev3.patientsPaginate s none none = jsonOk ((mapValues s.patients).take 10)) ∧
    (Rev3.appointmentsPaginate s none none = jsonOk ((mapValues s.appointments).take 10)) ∧
    (Rev3.recordsPaginate s none none = jsonOk ((mapValues s.records).take 10)) ∧
    (Rev3.medsPaginate s none none = jsonOk ((mapValues s.medications).take 10)) ∧
    (Rev3.doctorsPaginate s none (some (JSNum.int l)) =
      jsonOk ((mapValues s.doctors).take l)) ∧
    (Rev3.doctorsPaginate s (some (JSNum.int p)) none =
      jsonOk (((mapValues s.doctors).take (p * 10)).drop ((p - 1) * 10))) := by
  refine ⟨?_, ?_, ?_, ?_, ?_, ?_, ?_, ?_, ?_, ?_, ?_, ?_⟩ <;>
    simp only [Rev3.doctorsPaginate, Rev3.patientsPaginate, Rev3.appointmentsPaginate,
      Rev3.recordsPaginate, Rev3.medsPaginate,
      paginate_pos _ _ _ hp hl, paginate_none_none,
      paginate_none_some _ _ hl, paginate_some_none _ _ hp]

/-- Witness for C5 at `page = 2`, `limit = 2` on a three-doctor state. -/
theorem C5_paginate_slice_witness :
    Rev3.doctorsPaginate sampleState3 (some (JSNum.int 2)) (some (JSNum.int 2)) =
      jsonOk [sampleDoctor3 "d3"] :=
  (C5_paginate_slice sampleState3 2 2 (by decide) (by decide)).1.trans (by decide)

/-- C10: a `page` (resp. `limit`) query parameter that is absent,
non-numeric (`parseInt` gives `NaN`) or parses to `0` is replaced by the
default 1 (resp. 10) via the `||` fallback, so the request still returns
a well-defined slice; every paginate endpoint always responds 200. -/
theorem C10_paginate_degenerate (s : Rev3.State) (pq lq : Option JSNum) :
    (pq = none ∨ pq = some JSNum.nan ∨ pq = some (JSNum.int 0) →
      Rev3.doctorsPaginate s pq lq = Rev3.doctorsPaginate s (some (JSNum.int 1)) lq) ∧
    (lq = none ∨ lq = some JSNum.nan ∨ lq = some (JSNum.int 0) →
      Rev3.doctorsPaginate s pq lq = Rev3.doctorsPaginate s pq (some (JSNum.int 10))) ∧
    (Rev3.doctorsPaginate s pq lq).status = 200 ∧
    (Rev3.patientsPaginate s pq lq).status = 200 ∧
    (Rev3.appointmentsPaginate s pq lq).status = 200 ∧
    (Rev3.recordsPaginate s pq lq).status = 200 ∧
    (Rev3.medsPaginate s pq lq).status = 200 := by
  refine ⟨?_, ?_, rfl, rfl, rfl, rfl, rfl⟩
  · intro h
    simp only [Rev3.doctorsPaginate, paginate]
    rw [parsedOr_page_default pq h]
  · intro h
    simp only [Rev3.doctorsPaginate, paginate]
    rw [parsedOr_limit_default lq h]

/-- Witness for C10 at `page = NaN` (non-numeric) and absent `limit`. -/
theorem C10_paginate_degenerate_witness :
    (Rev3.doctorsPaginate sampleState3 (some JSNum.nan) none =
      Rev3.doctorsPaginate sampleState3 (some (JSNum.int 1)) none) ∧
    (Rev3.doctorsPaginate sampleState3 (some JSNum.nan) none =
      Rev3.doctorsPaginate sampleState3 (some JSNum.nan) (some (JSNum.int 10))) ∧
    (Rev3.doctorsPaginate sampleState3 (some JSNum.nan) none).status = 200 :=
  have h := C10_paginate_degenerate sampleState3 (some JSNum.nan) none
  ⟨h.1 (Or.inr (Or.inl rfl)), h.2.1 (Or.inl rfl), h.2.2.1⟩

/-- C1 counterexample: in revision 1, a `PUT /appointments/:id` whose id is
absent responds with HTTP status 400, not 404 as the claim states (the
same holds for revision-1 DELETE). -/
theorem C1_counterexample :
    (Rev1.putAppointment Rev1.emptyState "a1" apptBodyOK 0).1.status = 400 ∧
    (Rev1.putAppointment Rev1.emptyState "a1" apptBodyOK 0).1.status ≠ 404 ∧
    (Rev1.deleteAppointment Rev1.emptyState "a1").1.status = 400 := by
  refine ⟨by decide, by decide, by decide⟩

/-- C1 (amended): for a by-id request whose id is absent from the addressed
collection, every modelled revision-3 GET/PUT/DELETE handler — and
revision-1 GET — responds 404 with an entity-not-found message, while
revision-1 PUT and DELETE respond 400 with a not-found message; in every
case the state is unchanged. The PUT conjuncts assume a body passing that
handler's validation (an invalid body is rejected 400 before the lookup). -/
theorem C1_not_found (s1 : Rev1.State) (s3 : Rev3.State) (i : String)
    (h1 : mapGet s1.appointments i = none)
    (hd : mapGet s3.doctors i = none)
    (hp : mapGet s3.patients i = none)
    (ha : mapGet s3.appointments i = none)
    (hr : mapGet s3.records i = none)
    (bd : DoctorBody) (hbd : Rev3.validDoctorBody bd = true)
    (bp : PatientBody) (hbp : Rev3.validPatientBody bp = true)
    (ba : AppointmentBody) (hba : Rev3.validAppointmentBody ba = true)
    (br : RecordBody) (hbr : Rev3.validRecordBody br = true)
    (b1 : AppointmentBody) (t : Time) :
    (Rev1.getAppointment s1 i =
      ⟨404, some ("the appointment with id=" ++ i ++ " not found"), none⟩) ∧
    (Rev1.putAppointment s1 i b1 t =
      (⟨400, some ("couldn't update an appointment with id=" ++ i ++
        ". appointment not found"), none⟩, s1)) ∧
    (Rev1.deleteAppointment s1 i =
      (⟨400, some ("couldn't delete an appointment with id=" ++ i ++
        ". appointment not found"), none⟩, s1)) ∧
    (Rev3.getDoctor s3 i =
      ⟨404, some ("Doctor with id = " ++ i ++ " not found"), none⟩) ∧
    (Rev3.putDoctor s3 i bd t =
      (⟨404, some ("Doctor with id = " ++ i ++ " not found"), none⟩, s3)) ∧
    (Rev3.deleteDoctor s3 i =
      (⟨404, some ("Doctor with id = " ++ i ++ " not found"), none⟩, s3)) ∧
    (Rev3.getPatient s3 i =
      ⟨404, some ("Patient with id = " ++ i ++ " not found"), none⟩) ∧
    (Rev3.putPatient s3 i bp t =
      (⟨404, some ("Patient with id = " ++ i ++ " not found"), none⟩, s3)) ∧
    (Rev3.deletePatient s3 i =
      (⟨404, some ("Patient with id = " ++ i ++ " not found"), none⟩, s3)) ∧
    (Rev3.getAppointment s3 i =
      ⟨404, some ("Appointment with id = " ++ i ++ " not found"), none⟩) ∧
    (Rev3.putAppointment s3 i ba t =
      (⟨404, some ("Appointment with id = " ++ i ++ " not found"), none⟩, s3)) ∧
    (Rev3.deleteAppointment s3 i =
      (⟨404, some ("Appointment with id = " ++ i ++ " not found"), none⟩, s3)) ∧
    (Rev3.putRecord s3 i br t =
      (⟨404, some ("Patient record with id = " ++ i ++ " not found"), none⟩, s3)) ∧
    (Rev3.deleteRecord s3 i =
      (⟨404, some ("Patient record with id = " ++ i ++ " not found"), none⟩, s3)) := by
  refine ⟨?_, ?_, ?_, ?_, ?_, ?_, ?_, ?_, ?_, ?_, ?_, ?_, ?_, ?_⟩
  · simp [Rev1.getAppointment, h1]
  · simp [Rev1.putAppointment, h1]
  · simp [Rev1.deleteAppointment, mapRemove_fst, h1, mapRemove_absent _ _ h1]
  · simp [Rev3.getDoctor, hd]
  · simp [Rev3.putDoctor, hbd, hd]
  · simp [Rev3.deleteDoctor, mapRemove_fst, hd, mapRemove_absent _ _ hd]
  · simp [Rev3.getPatient, hp]
  · simp [Rev3.putPatient, hbp, hp]
  · simp [Rev3.deletePatient, mapRemove_fst, hp, mapRemove_absent _ _ hp]
  · simp [Rev3.getAppointment, ha]
  · simp [Rev3.putAppointment, hba, ha]
  · simp [Rev3.deleteAppointment, mapRemove_fst, ha, mapRemove_absent _ _ ha]
  · simp [Rev3.putRecord, hbr, hr]
  · simp [Rev3.deleteRecord, mapRemove_fst, hr, mapRemove_absent _ _ hr]

/-- Witness for the amended C1 at the empty states and id `ghost`. -/
theorem C1_not_found_witness :
    mapGet Rev3.emptyState.doctors "ghost" = none ∧
    (Rev3.getDoctor Rev3.emptyState "ghost" =
      ⟨404, some "Doctor with id = ghost not found", none⟩) ∧
    (Rev1.putAppointment Rev1.emptyState "ghost" apptBodyOK 0 =
      (⟨400, some "couldn't update an appointment with id=ghost. appointment not found",
        none⟩, Rev1.emptyState)) ∧
    (Rev3.deleteAppointment Rev3.emptyState "ghost" =
      (⟨404, some "Appointment with id = ghost not found", none⟩, Rev3.emptyState)) :=
  have h := C1_not_found Rev1.emptyState Rev3.emptyState "ghost" rfl rfl rfl rfl rfl
    docBodyOK (by decide) patBodyOK (by decide) apptBodyOK (by decide)
    recBodyOK (by decide) apptBodyOK 0
  ⟨rfl, h.2.2.2.1.trans (by decide), h.2.1.trans (by decide),
    h.2.2.2.2.2.2.2.2.2.2.2.1.trans (by decide)⟩

/-- C3 counterexample: in revision 3, `POST /patients` with a body that
carries an `id` (and a `createdAt`) field stores the entity under the
body's id instead of the freshly generated one, and the body's
`createdAt` overrides the server timestamp — the spread `...req.body`
comes after the generated fields. -/
theorem C3_counterexample :
    (mapGet (Rev3.postPatient Rev3.emptyState
      { patBodyOK with id := some "evil", createdAt := some 999 } "gen1" 5).2.patients
      "gen1" = none) ∧
    ((mapGet (Rev3.postPatient Rev3.emptyState
      { patBodyOK with id := some "evil", createdAt := some 999 } "gen1" 5).2.patients
      "evil").isSome = true) ∧
    ((Rev3.postPatient Rev3.emptyState
      { patBodyOK with id := some "evil", createdAt := some 999 } "gen1" 5).1.payload.map
      Rev3.Patient.createdAt = some 999) := by
  refine ⟨by decide, by decide, by decide⟩

/-- C3 (amended): constructor-based creates (revision 2, and revision-3
doctors) key the entity by the freshly generated identifier with the
server timestamp for EVERY body — no body field can override them; the
spread-based creates (revision 1, and the other revision-3 collections)
do so only when the body carries no `id`/`createdAt` property, since the
spread lets those body fields override the generated values. -/
theorem C3_generated_id (s1 : Rev1.State) (s2 : Rev2.State) (s3 : Rev3.State)
    (nid : String) (t : Time) (b2 : DoctorBody) (bd : DoctorBody) (bp : PatientBody)
    (hbd3 : Rev3.validDoctorBody bd = true)
    (hbp3 : Rev3.validPatientBody bp = true)
    (hb1id : bd.id = none) (hb1ca : bd.createdAt = none)
    (hbpid : bp.id = none) (hbpca : bp.createdAt = none) :
    ((Rev2.postDoctor s2 b2 nid t).1.payload.map Rev2.Doctor.id = some nid ∧
      (Rev2.postDoctor s2 b2 nid t).1.payload.map Rev2.Doctor.createdAt = some t ∧
      mapGet (Rev2.postDoctor s2 b2 nid t).2.doctors nid =
        (Rev2.postDoctor s2 b2 nid t).1.payload) ∧
    ((Rev3.postDoctor s3 bd nid t).1.payload.map Rev3.Doctor.id = some nid ∧
      (Rev3.postDoctor s3 bd nid t).1.payload.map Rev3.Doctor.createdAt = some t ∧
      mapGet (Rev3.postDoctor s3 bd nid t).2.doctors nid =
        (Rev3.postDoctor s3 bd nid t).1.payload) ∧
    ((Rev1.postDoctor s1 bd nid t).1.payload.map Rev1.Doctor.id = some nid ∧
      (Rev1.postDoctor s1 bd nid t).1.payload.map Rev1.Doctor.createdAt = some t ∧
      mapGet (Rev1.postDoctor s1 bd nid t).2.doctors nid =
        (Rev1.postDoctor s1 bd nid t).1.payload) ∧
    ((Rev3.postPatient s3 bp nid t).1.payload.map Rev3.Patient.id = some nid ∧
      (Rev3.postPatient s3 bp nid t).1.payload.map Rev3.Patient.createdAt = some t ∧
      mapGet (Rev3.postPatient s3 bp nid t).2.patients nid =
        (Rev3.postPatient s3 bp nid t).1.payload) := by
  refine ⟨⟨?_, ?_, ?_⟩, ⟨?_, ?_, ?_⟩, ⟨?_, ?_, ?_⟩, ⟨?_, ?_, ?_⟩⟩
  · simp [Rev2.postDoctor, Rev2.mkDoctor, jsonOk]
  · simp [Rev2.postDoctor, Rev2.mkDoctor, jsonOk]
  · simp [Rev2.postDoctor, Rev2.mkDoctor, jsonOk, mapGet_insert_self]
  · simp [Rev3.postDoctor, Rev3.mkDoctor, hbd3]
  · simp [Rev3.postDoctor, Rev3.mkDoctor, hbd3]
  · simp [Rev3.postDoctor, Rev3.mkDoctor, hbd3, mapGet_insert_self]
  · simp [Rev1.postDoctor, jsonOk, hb1id]
  · simp [Rev1.postDoctor, jsonOk, hb1ca]
  · simp [Rev1.postDoctor, jsonOk, hb1id, mapGet_insert_self]
  · simp [Rev3.postPatient, hbp3, hbpid]
  · simp [Rev3.postPatient, hbp3, hbpca]
  · simp [Rev3.postPatient, hbp3, hbpid, mapGet_insert_self]

/-- Witness for the amended C3: concrete creates on empty states. -/
theorem C3_generated_id_witness :
    ((Rev2.postDoctor Rev2.emptyState docBodyOK "u1" 7).1.payload.map Rev2.Doctor.id =
      some "u1") ∧
    ((Rev3.postPatient Rev3.emptyState patBodyOK "u2" 7).1.payload.map Rev3.Patient.id =
      some "u2") ∧
    ((Rev3.postPatient Rev3.emptyState patBodyOK "u2" 7).1.payload.map
      Rev3.Patient.createdAt = some 7) :=
  have h := C3_generated_id Rev1.emptyState Rev2.emptyState Rev3.emptyState "u1" 7
    docBodyOK docBodyOK patBodyOK (by decide) (by decide) rfl rfl rfl rfl
  have h2 := C3_generated_id Rev1.emptyState Rev2.emptyState Rev3.emptyState "u2" 7
    docBodyOK docBodyOK patBodyOK (by decide) (by decide) rfl rfl rfl rfl
  ⟨h.1.1, h2.2.2.2.1, h2.2.2.2.2.1⟩

/-- C4 counterexample: revision-1 `POST /doctors` performs no validation:
an empty body (every required field missing) is accepted with status 200
and a doctor is inserted, contradicting "rejected with 400 and nothing
inserted". -/
theorem C4_counterexample :
    (Rev1.postDoctor Rev1.emptyState {} "d1" 0).1.status = 200 ∧
    (Rev1.postDoctor Rev1.emptyState {} "d1" 0).1.status ≠ 400 ∧
    (Rev1.postDoctor Rev1.emptyState {} "d1" 0).2 ≠ Rev1.emptyState := by
  refine ⟨by decide, by decide, by decide⟩

/-- C4 (amended): in revision 3, every modelled create/update handler
rejects a body failing its required-field presence/type validation with
status 400 and leaves the state unchanged; revision-1 creates (and
revision-2 creates) perform no validation at all and insert regardless. -/
theorem C4_validation_rejects (s : Rev3.State) (i nid : String) (t : Time)
    (bd : DoctorBody) (bp : PatientBody) (ba : AppointmentBody)
    (br : RecordBody) (bm : MedicationBody)
    (hbd : Rev3.validDoctorBody bd = false)
    (hbp : Rev3.validPatientBody bp = false)
    (hba : Rev3.validAppointmentBody ba = false)
    (hbr : Rev3.validRecordBody br = false)
    (hbm : Rev3.validMedicationBody bm = false) :
    ((Rev3.postDoctor s bd nid t).1.status = 400 ∧ (Rev3.postDoctor s bd nid t).2 = s) ∧
    ((Rev3.putDoctor s i bd t).1.status = 400 ∧ (Rev3.putDoctor s i bd t).2 = s) ∧
    ((Rev3.postPatient s bp nid t).1.status = 400 ∧ (Rev3.postPatient s bp nid t).2 = s) ∧
    ((Rev3.putPatient s i bp t).1.status = 400 ∧ (Rev3.putPatient s i bp t).2 = s) ∧
    ((Rev3.postAppointment s ba nid t).1.status = 400 ∧
      (Rev3.postAppointment s ba nid t).2 = s) ∧
    ((Rev3.putAppointment s i ba t).1.status = 400 ∧
      (Rev3.putAppointment s i ba t).2 = s) ∧
    ((Rev3.postRecord s br nid t).1.status = 400 ∧ (Rev3.postRecord s br nid t).2 = s) ∧
    ((Rev3.putRecord s i br t).1.status = 400 ∧ (Rev3.putRecord s i br t).2 = s) ∧
    ((Rev3.postMedication s bm nid t).1.status = 400 ∧
      (Rev3.postMedication s bm nid t).2 = s) := by
  refine ⟨⟨?_, ?_⟩, ⟨?_, ?_⟩, ⟨?_, ?_⟩, ⟨?_, ?_⟩, ⟨?_, ?_⟩, ⟨?_, ?_⟩, ⟨?_, ?_⟩,
    ⟨?_, ?_⟩, ⟨?_, ?_⟩⟩ <;>
    simp [Rev3.postDoctor, Rev3.putDoctor, Rev3.postPatient, Rev3.putPatient,
      Rev3.postAppointment, Rev3.putAppointment, Rev3.postRecord, Rev3.putRecord,
      Rev3.postMedication, hbd, hbp, hba, hbr, hbm]

/-- Witness for the amended C4: the empty body fails every validator. -/
theorem C4_validation_rejects_witness :
    (Rev3.postDoctor sampleState3 {} "n1" 0).1.status = 400 ∧
    (Rev3.postDoctor sampleState3 {} "n1" 0).2 = sampleState3 ∧
    (Rev3.putPatient sampleState3 "p1" {} 0).1.status = 400 :=
  have h := C4_validation_rejects sampleState3 "p1" "n1" 0 {} {} {} {} {}
    (by decide) (by decide) (by decide) (by decide) (by decide)
  ⟨h.1.1, h.1.2, h.2.2.2.1.1⟩

/-- The appointment revision-3 `POST /appointments` stores for
`apptBodyOK` with generated id `a1` at time 0 (used by the C6 witness). -/
def apptStored3 : Rev3.Appointment :=
  { id := "a1", patientId := .vstr "p1", doctorId := .vstr "d1",
    dateTime := .vstr "2024-05-01T10:00", duration := .vnum 30,
    description := .vstr "checkup", createdAt := 0, updatedAt := none }

/-- C6: creating an appointment, patient record, or medication succeeds
(status 201 in revision 3, 200 in revision 1; the entity is stored and
returned) for any state whatsoever — in particular when its `patientId`
or `doctorId` matches nothing in the patients/doctors collections — and
the response and resulting collection are independent of the contents of
the doctors and patients maps: no cross-collection check exists. -/
theorem C6_no_ref_integrity (s1 : Rev1.State) (s3 : Rev3.State) (nid : String) (t : Time)
    (ba : AppointmentBody) (br : RecordBody) (bm : MedicationBody)
    (hba : Rev3.validAppointmentBody ba = true)
    (hbr : Rev3.validRecordBody br = true)
    (hbm : Rev3.validMedicationBody bm = true) :
    ((Rev3.postAppointment s3 ba nid t).1.status = 201 ∧
      (∀ a : Rev3.Appointment, (Rev3.postAppointment s3 ba nid t).1.payload = some a →
        mapGet (Rev3.postAppointment s3 ba nid t).2.appointments a.id = some a)) ∧
    ((Rev3.postRecord s3 br nid t).1.status = 201 ∧
      (∀ r : Rev3.PatientRecord, (Rev3.postRecord s3 br nid t).1.payload = some r →
        mapGet (Rev3.postRecord s3 br nid t).2.records r.id = some r)) ∧
    ((Rev3.postMedication s3 bm nid t).1.status = 201 ∧
      (∀ m : Rev3.Medication, (Rev3.postMedication s3 bm nid t).1.payload = some m →
        mapGet (Rev3.postMedication s3 bm nid t).2.medications m.id = some m)) ∧
    (∀ (d : StableMap Rev3.Doctor) (p : StableMap Rev3.Patient),
      (Rev3.postAppointment { s3 with doctors := d, patients := p } ba nid t).1 =
        (Rev3.postAppointment s3 ba nid t).1 ∧
      (Rev3.postAppointment { s3 with doctors := d, patients := p } ba nid t).2.appointments
        = (Rev3.postAppointment s3 ba nid t).2.appointments) ∧
    ((Rev1.postAppointment s1 ba nid t).1.status = 200 ∧
      (∀ a : Rev1.Appointment, (Rev1.postAppointment s1 ba nid t).1.payload = some a →
        mapGet (Rev1.postAppointment s1 ba nid t).2.appointments a.id = some a)) := by
  refine ⟨⟨?_, ?_⟩, ⟨?_, ?_⟩, ⟨?_, ?_⟩, ?_, ⟨?_, ?_⟩⟩
  · simp [Rev3.postAppointment, hba]
  · intro a hA
    simp [Rev3.postAppointment, hba] at hA ⊢
    rw [← hA]
    exact mapGet_insert_self _ _ _
  · simp [Rev3.postRecord, hbr]
  · intro r hR
    simp [Rev3.postRecord, hbr] at hR ⊢
    rw [← hR]
    exact mapGet_insert_self _ _ _
  · simp [Rev3.postMedication, hbm]
  · intro m hM
    simp [Rev3.postMedication, hbm] at hM ⊢
    rw [← hM]
    exact mapGet_insert_self _ _ _
  · intro d p
    exact ⟨by simp [Rev3.postAppointment, hba], by simp [Rev3.postAppointment, hba]⟩
  · simp [Rev1.postAppointment, jsonOk]
  · intro a hA
    simp [Rev1.postAppointment, jsonOk] at hA ⊢
    rw [← hA]
    exact mapGet_insert_self _ _ _

/-- Witness for C6: a dangling `patientId`/`doctorId` (empty patients and
doctors collections) does not prevent the create. -/
theorem C6_no_ref_integrity_witness :
    mapGet Rev3.emptyState.patients "p1" = none ∧
    mapGet Rev3.emptyState.doctors "d1" = none ∧
    (Rev3.postAppointment Rev3.emptyState apptBodyOK "a1" 0).1.status = 201 ∧
    mapGet (Rev3.postAppointment Rev3.emptyState apptBodyOK "a1" 0).2.appointments
      apptStored3.id = some apptStored3 :=
  have h := C6_no_ref_integrity Rev1.emptyState Rev3.emptyState "a1" 0
    apptBodyOK recBodyOK medBodyOK (by decide) (by decide) (by decide)
  ⟨rfl, rfl, h.1.1, h.1.2 apptStored3 (by decide)⟩

/-- C7 counterexample: starting from the reachable state obtained by
`POST /doctors` (id `k`) followed by `PUT /doctors/k` with a body that
carries `id: "x"` (stored entity's id becomes `x` while its key stays
`k`), a further `PUT /doctors/k` inserts under the stored entity's id
`x` — changing key `x`, which is not the addressed key `k`. -/
theorem C7_counterexample :
    mapGet (Rev3.putDoctor (Rev3.postDoctor Rev3.emptyState docBodyOK "k" 0).2 "k"
      { docBodyOK with id := some "x" } 1).2.doctors "x" = none ∧
    (mapGet (Rev3.putDoctor
        (Rev3.putDoctor (Rev3.postDoctor Rev3.emptyState docBodyOK "k" 0).2 "k"
          { docBodyOK with id := some "x" } 1).2 "k" docBodyOK 2).2.doctors
      "x").isSome = true := by
  refine ⟨by decide, by decide⟩

/-- C7 (amended): each modelled create/update/delete touches only its own
collection (the other four maps are returned unchanged) and modifies at
most one key of it: the stored entity's id for creates (`body.id` when
present, else the generated id; always the generated id for the rev-3
doctor constructor), the path id for deletes, and — for updates —
the addressed path id provided the stored entity's id equals its key,
which a body-supplied `id` on an earlier update can break. -/
theorem C7_frame (s1 : Rev1.State) (s3 : Rev3.State) (i nid : String) (t : Time)
    (ba : AppointmentBody) (bd : DoctorBody) (bp : PatientBody) :
    ((Rev1.postAppointment s1 ba nid t).2.doctors = s1.doctors ∧
     (Rev1.postAppointment s1 ba nid t).2.patients = s1.patients ∧
     (Rev1.postAppointment s1 ba nid t).2.records = s1.records ∧
     (Rev1.postAppointment s1 ba nid t).2.medications = s1.medications ∧
     ∀ k, k ≠ ba.id.getD nid →
       mapGet (Rev1.postAppointment s1 ba nid t).2.appointments k =
         mapGet s1.appointments k) ∧
    ((Rev1.putAppointment s1 i ba t).2.doctors = s1.doctors ∧
     (Rev1.putAppointment s1 i ba t).2.patients = s1.patients ∧
     (Rev1.putAppointment s1 i ba t).2.records = s1.records ∧
     (Rev1.putAppointment s1 i ba t).2.medications = s1.medications ∧
     ((∀ a, mapGet s1.appointments i = some a → Rev1.Appointment.id a = i) →
       ∀ k, k ≠ i →
         mapGet (Rev1.putAppointment s1 i ba t).2.appointments k =
           mapGet s1.appointments k)) ∧
    ((Rev1.deleteAppointment s1 i).2.doctors = s1.doctors ∧
     (Rev1.deleteAppointment s1 i).2.patients = s1.patients ∧
     (Rev1.deleteAppointment s1 i).2.records = s1.records ∧
     (Rev1.deleteAppointment s1 i).2.medications = s1.medications ∧
     ∀ k, k ≠ i →
       mapGet (Rev1.deleteAppointment s1 i).2.appointments k =
         mapGet s1.appointments k) ∧
    ((Rev3.postDoctor s3 bd nid t).2.patients = s3.patients ∧
     (Rev3.postDoctor s3 bd nid t).2.appointments = s3.appointments ∧
     (Rev3.postDoctor s3 bd nid t).2.records = s3.records ∧
     (Rev3.postDoctor s3 bd nid t).2.medications = s3.medications ∧
     ∀ k, k ≠ nid →
       mapGet (Rev3.postDoctor s3 bd nid t).2.doctors k = mapGet s3.doctors k) ∧
    ((Rev3.putDoctor s3 i bd t).2.patients = s3.patients ∧
     (Rev3.putDoctor s3 i bd t).2.appointments = s3.appointments ∧
     (Rev3.putDoctor s3 i bd t).2.records = s3.records ∧
     (Rev3.putDoctor s3 i bd t).2.medications = s3.medications ∧
     ((∀ d, mapGet s3.doctors i = some d → Rev3.Doctor.id d = i) →
       ∀ k, k ≠ i →
         mapGet (Rev3.putDoctor s3 i bd t).2.doctors k = mapGet s3.doctors k)) ∧
    ((Rev3.deleteDoctor s3 i).2.patients = s3.patients ∧
     (Rev3.deleteDoctor s3 i).2.appointments = s3.appointments ∧
     (Rev3.deleteDoctor s3 i).2.records = s3.records ∧
     (Rev3.deleteDoctor s3 i).2.medications = s3.medications ∧
     ∀ k, k ≠ i →
       mapGet (Rev3.deleteDoctor s3 i).2.doctors k = mapGet s3.doctors k) ∧
    ((Rev3.postPatient s3 bp nid t).2.doctors = s3.doctors ∧
     (Rev3.postPatient s3 bp nid t).2.appointments = s3.appointments ∧
     (Rev3.postPatient s3 bp nid t).2.records = s3.records ∧
     (Rev3.postPatient s3 bp nid t).2.medications = s3.medications ∧
     ∀ k, k ≠ bp.id.getD nid →
       mapGet (Rev3.postPatient s3 bp nid t).2.patients k = mapGet s3.patients k) := by
  refine ⟨⟨rfl, rfl, rfl, rfl, ?_⟩, ?_, ?_, ?_, ?_, ?_, ?_⟩
  · intro k hk
    simp only [Rev1.postAppointment]
    exact mapGet_insert_ne _ _ _ _ hk
  · cases hg : mapGet s1.appointments i with
    | none =>
        refine ⟨by simp [Rev1.putAppointment, hg], by simp [Rev1.putAppointment, hg],
          by simp [Rev1.putAppointment, hg], by simp [Rev1.putAppointment, hg], ?_⟩
        intro _ k hk
        simp [Rev1.putAppointment, hg]
    | some a =>
        refine ⟨by simp [Rev1.putAppointment, hg], by simp [Rev1.putAppointment, hg],
          by simp [Rev1.putAppointment, hg], by simp [Rev1.putAppointment, hg], ?_⟩
        intro hinv k hk
        have hai : Rev1.Appointment.id a = i := hinv a rfl
        simp only [Rev1.putAppointment, hg]
        rw [hai]
        exact mapGet_insert_ne _ _ _ _ hk
  · cases hr1 : (mapRemove s1.appointments i).1 with
    | none =>
        refine ⟨by simp [Rev1.deleteAppointment, hr1], by simp [Rev1.deleteAppointment, hr1],
          by simp [Rev1.deleteAppointment, hr1], by simp [Rev1.deleteAppointment, hr1], ?_⟩
        intro k hk
        simp [Rev1.deleteAppointment, hr1, mapGet_remove_ne _ _ _ hk]
    | some a =>
        refine ⟨by simp [Rev1.deleteAppointment, hr1], by simp [Rev1.deleteAppointment, hr1],
          by simp [Rev1.deleteAppointment, hr1], by simp [Rev1.deleteAppointment, hr1], ?_⟩
        intro k hk
        simp [Rev1.deleteAppointment, hr1, mapGet_remove_ne _ _ _ hk]
  · by_cases hv : Rev3.validDoctorBody bd
    · refine ⟨by simp [Rev3.postDoctor, hv], by simp [Rev3.postDoctor, hv],
        by simp [Rev3.postDoctor, hv], by simp [Rev3.postDoctor, hv], ?_⟩
      intro k hk
      simp [Rev3.postDoctor, Rev3.mkDoctor, hv, mapGet_insert_ne _ _ _ _ hk]
    · refine ⟨by simp [Rev3.postDoctor, hv], by simp [Rev3.postDoctor, hv],
        by simp [Rev3.postDoctor, hv], by simp [Rev3.postDoctor, hv], ?_⟩
      intro k hk
      simp [Rev3.postDoctor, hv]
  · by_cases hv : Rev3.validDoctorBody bd
    · cases hg : mapGet s3.doctors i with
      | none =>
          refine ⟨by simp [Rev3.putDoctor, hv, hg], by simp [Rev3.putDoctor, hv, hg],
            by simp [Rev3.putDoctor, hv, hg], by simp [Rev3.putDoctor, hv, hg], ?_⟩
          intro _ k hk
          simp [Rev3.putDoctor, hv, hg]
      | some d =>
          refine ⟨by simp [Rev3.putDoctor, hv, hg], by simp [Rev3.putDoctor, hv, hg],
            by simp [Rev3.putDoctor, hv, hg], by simp [Rev3.putDoctor, hv, hg], ?_⟩
          intro hinv k hk
          have hdi : Rev3.Doctor.id d = i := hinv d rfl
          simp only [Rev3.putDoctor, hv, if_true, hg]
          rw [hdi]
          exact mapGet_insert_ne _ _ _ _ hk
    · refine ⟨by simp [Rev3.putDoctor, hv], by simp [Rev3.putDoctor, hv],
        by simp [Rev3.putDoctor, hv], by simp [Rev3.putDoctor, hv], ?_⟩
      intro _ k hk
      simp [Rev3.putDoctor, hv]
  · cases hr1 : (mapRemove s3.doctors i).1 with
    | none =>
        refine ⟨by simp [Rev3.deleteDoctor, hr1], by simp [Rev3.deleteDoctor, hr1],
          by simp [Rev3.deleteDoctor, hr1], by simp [Rev3.deleteDoctor, hr1], ?_⟩
        intro k hk
        simp [Rev3.deleteDoctor, hr1, mapGet_remove_ne _ _ _ hk]
    | some d =>
        refine ⟨by simp [Rev3.deleteDoctor, hr1], by simp [Rev3.deleteDoctor, hr1],
          by simp [Rev3.deleteDoctor, hr1], by simp [Rev3.deleteDoctor, hr1], ?_⟩
        intro k hk
        simp [Rev3.deleteDoctor, hr1, mapGet_remove_ne _ _ _ hk]
  · by_cases hv : Rev3.validPatientBody bp
    · refine ⟨by simp [Rev3.postPatient, hv], by simp [Rev3.postPatient, hv],
        by simp [Rev3.postPatient, hv], by simp [Rev3.postPatient, hv], ?_⟩
      intro k hk
      simp only [Rev3.postPatient, hv, if_true]
      exact mapGet_insert_ne _ _ _ _ hk
    · refine ⟨by simp [Rev3.postPatient, hv], by simp [Rev3.postPatient, hv],
        by simp [Rev3.postPatient, hv], by simp [Rev3.postPatient, hv], ?_⟩
      intro k hk
      simp [Rev3.postPatient, hv]

/-- Witness for the amended C7: concrete frame facts on `sampleState3`
(all stored ids equal their keys) and the empty revision-1 state. -/
theorem C7_frame_witness :
    (Rev3.putDoctor sampleState3 "d1" docBodyOK 3).2.patients = sampleState3.patients ∧
    mapGet (Rev3.putDoctor sampleState3 "d1" docBodyOK 3).2.doctors "d2" =
      mapGet sampleState3.doctors "d2" ∧
    mapGet (Rev1.deleteAppointment Rev1.emptyState "a1").2.appointments "b" =
      mapGet Rev1.emptyState.appointments "b" :=
  have h := C7_frame Rev1.emptyState sampleState3 "d1" "n1" 3 apptBodyOK docBodyOK patBodyOK
  ⟨h.2.2.2.2.1.1,
    h.2.2.2.2.1.2.2.2.2 (by decide) "d2" (by decide),
    h.2.2.1.2.2.2.2 "b" (by decide)⟩

/-- C8: CRUD round-trip — after a successful create, a GET by the id of
the returned entity yields exactly that entity (with the rev-3 success
envelope), and the entity is in the collection's `values()` listing
(proved for rev-3 doctors, the cited handlers, and rev-1 appointments). -/
theorem C8_roundtrip (s1 : Rev1.State) (s3 : Rev3.State) (nid : String) (t : Time)
    (bd : DoctorBody) (ba : AppointmentBody)
    (hbd : Rev3.validDoctorBody bd = true) :
    (∀ d : Rev3.Doctor, (Rev3.postDoctor s3 bd nid t).1.payload = some d →
      Rev3.getDoctor (Rev3.postDoctor s3 bd nid t).2 d.id =
        ⟨200, some "Doctor retrieved successfully", some d⟩ ∧
      d ∈ mapValues (Rev3.postDoctor s3 bd nid t).2.doctors ∧
      (Rev3.getDoctors (Rev3.postDoctor s3 bd nid t).2).payload =
        some (mapValues (Rev3.postDoctor s3 bd nid t).2.doctors)) ∧
    (∀ a : Rev1.Appointment, (Rev1.postAppointment s1 ba nid t).1.payload = some a →
      Rev1.getAppointment (Rev1.postAppointment s1 ba nid t).2 a.id = jsonOk a ∧
      a ∈ mapValues (Rev1.postAppointment s1 ba nid t).2.appointments) := by
  constructor
  · intro d hd
    simp [Rev3.postDoctor, hbd] at hd ⊢
    rw [← hd]
    refine ⟨?_, ?_, rfl⟩
    · simp [Rev3.getDoctor, Rev3.mkDoctor, mapGet_insert_self]
    · exact mem_values_insert _ _ _
  · intro a ha
    simp [Rev1.postAppointment, jsonOk] at ha ⊢
    rw [← ha]
    refine ⟨?_, ?_⟩
    · simp [Rev1.getAppointment, mapGet_insert_self, jsonOk]
    · exact mem_values_insert _ _ _

/-- Witness for C8: create a doctor on the sample state and read it back. -/
theorem C8_roundtrip_witness :
    Rev3.getDoctor (Rev3.postDoctor sampleState3 docBodyOK "d9" 7).2
      (Rev3.mkDoctor (.vstr "Alice") (.vstr "cardiology") "d9" 7).id =
      ⟨200, some "Doctor retrieved successfully",
        some (Rev3.mkDoctor (.vstr "Alice") (.vstr "cardiology") "d9" 7)⟩ ∧
    Rev3.mkDoctor (.vstr "Alice") (.vstr "cardiology") "d9" 7 ∈
      mapValues (Rev3.postDoctor sampleState3 docBodyOK "d9" 7).2.doctors :=
  have h := (C8_roundtrip Rev1.emptyState sampleState3 "d9" 7 docBodyOK apptBodyOK
    (by decide)).1 (Rev3.mkDoctor (.vstr "Alice") (.vstr "cardiology") "d9" 7) (by decide)
  ⟨h.1, h.2.1⟩

/-- C9 counterexample: revision-2 `PUT /appointments/:id` constructs a
new `Appointment` — whose constructor assigns a FRESH uuid — and stores
it under the old path key, so in the state reached from empty by
`POST /appointments` (id `a1`) then `PUT /appointments/a1` (fresh id
`u2`), the entity stored at key `a1` has id `u2` ≠ `a1`. -/
theorem C9_counterexample :
    (mapGet (Rev2.putAppointment
        (Rev2.postAppointment Rev2.emptyState apptBodyOK "a1" 5).2
        "a1" apptBodyOK "u2" 6).2.appointments "a1").map Rev2.Appointment.id =
      some "u2" ∧
    "u2" ≠ "a1" := by
  refine ⟨by decide, by decide⟩

/-- C9 (amended): the id-equals-key invariant is preserved by every
modelled create and delete unconditionally, and by revision-1/3 updates
whose body carries no `id` field; it is not preserved by the revision-2
update (fresh constructor id stored under the old key), nor by a
revision-1/3 update whose body smuggles in an `id`. -/
theorem C9_invariant (s1 : Rev1.State) (s3 : Rev3.State)
    (i nid : String) (t : Time)
    (ba : AppointmentBody) (bd : DoctorBody) (bp : PatientBody)
    (h1 : idKeyInv Rev1.Appointment.id s1.appointments)
    (h3 : idKeyInv Rev3.Doctor.id s3.doctors)
    (hp3 : idKeyInv Rev3.Patient.id s3.patients)
    (hbaid : ba.id = none) (hbdid : bd.id = none) :
    idKeyInv Rev1.Appointment.id (Rev1.postAppointment s1 ba nid t).2.appointments ∧
    idKeyInv Rev1.Appointment.id (Rev1.putAppointment s1 i ba t).2.appointments ∧
    idKeyInv Rev1.Appointment.id (Rev1.deleteAppointment s1 i).2.appointments ∧
    idKeyInv Rev3.Doctor.id (Rev3.postDoctor s3 bd nid t).2.doctors ∧
    idKeyInv Rev3.Doctor.id (Rev3.putDoctor s3 i bd t).2.doctors ∧
    idKeyInv Rev3.Doctor.id (Rev3.deleteDoctor s3 i).2.doctors ∧
    idKeyInv Rev3.Patient.id (Rev3.postPatient s3 bp nid t).2.patients := by
  refine ⟨?_, ?_, ?_, ?_, ?_, ?_, ?_⟩
  · simp only [Rev1.postAppointment]
    exact idKeyInv_insert _ _ _ _ h1 rfl
  · cases hg : mapGet s1.appointments i with
    | none => simpa [Rev1.putAppointment, hg] using h1
    | some a =>
        simp only [Rev1.putAppointment, hg]
        exact idKeyInv_insert _ _ _ _ h1 (by simp [hbaid])
  · cases hr1 : (mapRemove s1.appointments i).1 with
    | none =>
        simp only [Rev1.deleteAppointment, hr1]
        exact idKeyInv_remove _ _ _ h1
    | some a =>
        simp only [Rev1.deleteAppointment, hr1]
        exact idKeyInv_remove _ _ _ h1
  · by_cases hv : Rev3.validDoctorBody bd
    · simp only [Rev3.postDoctor, hv, if_true]
      exact idKeyInv_insert _ _ _ _ h3 rfl
    · simpa [Rev3.postDoctor, hv] using h3
  · by_cases hv : Rev3.validDoctorBody bd
    · cases hg : mapGet s3.doctors i with
      | none => simpa [Rev3.putDoctor, hv, hg] using h3
      | some d =>
          simp only [Rev3.putDoctor, hv, if_true, hg]
          exact idKeyInv_insert _ _ _ _ h3 (by simp [hbdid])
    · simpa [Rev3.putDoctor, hv] using h3
  · cases hr1 : (mapRemove s3.doctors i).1 with
    | none =>
        simp only [Rev3.deleteDoctor, hr1]
        exact idKeyInv_remove _ _ _ h3
    | some d =>
        simp only [Rev3.deleteDoctor, hr1]
        exact idKeyInv_remove _ _ _ h3
  · by_cases hv : Rev3.validPatientBody bp
    · simp only [Rev3.postPatient, hv, if_true]
      exact idKeyInv_insert _ _ _ _ hp3 rfl
    · simpa [Rev3.postPatient, hv] using hp3

/-- Witness for the amended C9: the invariant survives a rev-1 create
followed by an id-free rev-1 update of the same appointment. -/
theorem C9_invariant_witness :
    idKeyInv Rev1.Appointment.id
      (Rev1.putAppointment (Rev1.postAppointment Rev1.emptyState apptBodyOK "a1" 0).2
        "a1" apptBodyOK 1).2.appointments :=
  (C9_invariant (Rev1.postAppointment Rev1.emptyState apptBodyOK "a1" 0).2 sampleState3
    "a1" "n1" 1 apptBodyOK docBodyOK patBodyOK
    (by simp only [idKeyInv]; decide) (by simp only [idKeyInv]; decide)
    (by simp only [idKeyInv]; decide) rfl rfl).2.1

/-! Stored entities and states exercising the by-relation endpoints. -/

def medStored1 : Rev1.Medication :=
  { id := "m1", name := .vstr "paracetamol", dosage := .vstr "500mg",
    frequency := .vstr "daily", patientId := .vstr "p1", createdAt := 0 }

def medState1 : Rev1.State := { Rev1.emptyState with medications := [("m1", medStored1)] }

def recStored1 : Rev1.PatientRecord :=
  { id := "r1", patientId := .vstr "p1", doctorId := .vstr "d1",
    diagnosis := .vstr "flu", treatment := .vstr "rest",
    medications := .varr ["paracetamol"], createdAt := 0 }

def recState1 : Rev1.State := { Rev1.emptyState with records := [("r1", recStored1)] }

def medStored3 : Rev3.Medication :=
  { id := "m1", name := .vstr "paracetamol", dosage := .vstr "500mg",
    frequency := .vstr "daily", patientId := .vstr "p1", createdAt := 0,
    updatedAt := none }

def medState3 : Rev3.State := { Rev3.emptyState with medications := [("m1", medStored3)] }

def recStored3 : Rev3.PatientRecord :=
  { id := "r1", patientId := .vstr "p1", doctorId := .vstr "d1",
    diagnosis := .vstr "flu", treatment := .vstr "rest",
    medications := .varr ["paracetamol"], createdAt := 0, updatedAt := none }

def recState3 : Rev3.State := { Rev3.emptyState with records := [("r1", recStored3)] }

/-- C2: the revision-1 by-relation endpoints do scan-and-filter on the
foreign-key field as claimed, but the revision-3 ones instead perform a
map LOOKUP keyed by the path id (`storage.get(pathId)`): on a state
holding one record `r1`/medication `m1` with `patientId = p1`,
`doctorId = d1`, the rev-3 endpoints 404 even though the filter the
claim (and the handlers' own comments) describe is nonempty. -/
theorem C2_filter_vs_lookup :
    (Rev1.recordsByPatient recState1 "p1" = jsonOk [recStored1]) ∧
    (Rev1.recordsByDoctor recState1 "d1" = jsonOk [recStored1]) ∧
    (Rev1.medsByPatient medState1 "p1" = jsonOk [medStored1]) ∧
    ((mapValues recState3.records).filter
      (fun r => r.patientId == JSVal.vstr "p1") = [recStored3]) ∧
    (Rev3.recordsByPatient recState3 "p1" =
      ⟨404, some "Patient records for patient with id = p1 not found", none⟩) ∧
    (Rev3.recordsByDoctor recState3 "d1" =
      ⟨404, some "Patient records for doctor with id = d1 not found", none⟩) ∧
    ((mapValues medState3.medications).filter
      (fun m => m.patientId == JSVal.vstr "p1") = [medStored3]) ∧
    (Rev3.medsByPatient medState3 "p1" =
      ⟨404, some "Medications for patient with id = p1 not found", none⟩) := by
  refine ⟨by decide, by decide, by decide, by decide, by decide, by decide,
    by decide, by decide⟩

end HealthTrack
